import Mathlib

/-! Verification of the `atm` transaction-replay ledger.

The Rust source (src/state.rs, src/transaction.rs, src/main.rs) is shallowly
embedded below:

* `u16` client ids and `u32` transaction ids are opaque keys, modelled as `Nat`;
* `u64` money amounts (counts of 1/10000ths) are modelled as `Nat`; `checked_sub`
  becomes an explicit `≤` test, and the unchecked subtractions in the Resolve and
  ChargeBack arms become truncated `Nat` subtraction (the held-funds invariant,
  proved below, shows they never underflow in reachable states);
* `HashMap` becomes an association list with first-match lookup and
  replace-or-append insertion (`mapLookup` / `mapInsert`); the source inserts a
  fresh key or overwrites an existing value through `get_mut`, both of which
  `mapInsert` performs;
* in-place mutation through `&mut self` with early `?` returns becomes a function
  returning `Except Err Account`: every arm of the source mutates only after its
  last fallible step, so the error branches carry no state;
* the distinct `format!` error strings of the source are represented by the
  constructors of `Err`, one per distinct message;
* CSV reading, the `f64`-to-fixed-point conversion `convert_amount`, and the
  decimal formatting `convert_from_thousandths` are I/O-boundary adapters; the
  summary is modelled by its numeric row contents.
-/

namespace Atm

/-- Unique identifier for a client (`Client(u16)` in src/transaction.rs). -/
abbrev Client := Nat

/-- Unique identifier for a transaction (`Tx(u32)` in src/transaction.rs). -/
abbrev Tx := Nat

/-- Monetary amount: a `u64` count of 1/10000ths of a unit. -/
abbrev Money := Nat

/-- The distinct error cases of the source, one constructor per distinct
`format!` message. -/
inductive Err where
  | clientMismatch
  | accountLocked
  | transactionNotFound
  | notUnderDispute
  | alreadyUnderDispute
  | transactionAlreadyExists
  | insufficientFundsWithdrawal
  | insufficientFundsDispute
  | invalidTransactionType
deriving DecidableEq, Repr

instance exceptDecEq {ε α : Type} [DecidableEq ε] [DecidableEq α] :
    DecidableEq (Except ε α) := fun x y =>
  match x, y with
  | Except.ok a, Except.ok b => decidable_of_iff (a = b) (by simp)
  | Except.ok _, Except.error _ => isFalse (by simp)
  | Except.error _, Except.ok _ => isFalse (by simp)
  | Except.error e, Except.error f => decidable_of_iff (e = f) (by simp)

/-- `Action` from src/transaction.rs. -/
inductive Action where
  | Deposit (amount : Money)
  | Withdrawal (amount : Money)
  | Dispute
  | Resolve
  | ChargeBack
deriving DecidableEq, Repr

/-- `Transaction` from src/transaction.rs. -/
structure Transaction where
  client : Client
  tx : Tx
  detail : Action
deriving DecidableEq, Repr

/-- `DepositDetail` from src/state.rs. -/
structure DepositDetail where
  amount : Money
  under_dispute : Bool
deriving DecidableEq, Repr

/-- Association-list lookup: first binding of the key (`HashMap::get`). -/
def mapLookup {κ ν : Type} [DecidableEq κ] : List (κ × ν) → κ → Option ν
  | [], _ => none
  | (k, v) :: rest, key => if k = key then some v else mapLookup rest key

/-- Association-list insertion: replace the first binding of the key in place,
or append a new binding (`HashMap::insert`, and writing through
`HashMap::get_mut`). -/
def mapInsert {κ ν : Type} [DecidableEq κ] : List (κ × ν) → κ → ν → List (κ × ν)
  | [], key, v => [(key, v)]
  | (k, v0) :: rest, key, v =>
    if k = key then (k, v) :: rest else (k, v0) :: mapInsert rest key v

/-- `Account` from src/state.rs. -/
structure Account where
  client : Client
  held : Money
  available : Money
  locked : Bool
  transactions : List (Tx × DepositDetail)
deriving DecidableEq, Repr

/-- `Account::new`: a fresh empty account. -/
def Account.new (client : Client) : Account :=
  { client := client, held := 0, available := 0, locked := false, transactions := [] }

/-- `Account::lookup_transaction`. The source returns `&mut DepositDetail`; here
the record is returned by value and call sites write the updated record back
with `mapInsert`. -/
def Account.lookup_transaction (self : Account) (tx : Tx) (expect_disputed : Bool) :
    Except Err DepositDetail :=
  match mapLookup self.transactions tx with
  | none => Except.error Err.transactionNotFound
  | some transaction =>
    if expect_disputed && !transaction.under_dispute then
      Except.error Err.notUnderDispute
    else if !expect_disputed && transaction.under_dispute then
      Except.error Err.alreadyUnderDispute
    else
      Except.ok transaction

/-- `Account::check_transaction_is_new`. -/
def Account.check_transaction_is_new (self : Account) (tx : Tx) : Except Err Unit :=
  match mapLookup self.transactions tx with
  | none => Except.ok ()
  | some _ => Except.error Err.transactionAlreadyExists

/-- `Account::handle_valid_transaction`: assumes the transaction is for this
account and the account is not locked. Each arm mirrors the source arm; the
`u64` `checked_sub` calls appear as `≤` tests, and mutation happens only on the
`ok` path, as in the source where every mutation follows the last `?`. -/
def Account.handle_valid_transaction (self : Account) (transaction : Transaction) :
    Except Err Account :=
  let tx := transaction.tx
  match transaction.detail with
  | Action.Deposit amount =>
    match self.check_transaction_is_new tx with
    | Except.error e => Except.error e
    | Except.ok _ =>
      Except.ok { self with
        available := self.available + amount,
        transactions := mapInsert self.transactions tx ⟨amount, false⟩ }
  | Action.Withdrawal amount =>
    match self.check_transaction_is_new tx with
    | Except.error e => Except.error e
    | Except.ok _ =>
      if amount ≤ self.available then
        Except.ok { self with available := self.available - amount }
      else
        Except.error Err.insufficientFundsWithdrawal
  | Action.Dispute =>
    match self.lookup_transaction tx false with
    | Except.error e => Except.error e
    | Except.ok disputed_transaction =>
      if disputed_transaction.amount ≤ self.available then
        Except.ok { self with
          transactions :=
            mapInsert self.transactions tx ⟨disputed_transaction.amount, true⟩,
          available := self.available - disputed_transaction.amount,
          held := self.held + disputed_transaction.amount }
      else
        Except.error Err.insufficientFundsDispute
  | Action.Resolve =>
    match self.lookup_transaction tx true with
    | Except.error e => Except.error e
    | Except.ok resolved_transaction =>
      Except.ok { self with
        transactions :=
          mapInsert self.transactions tx ⟨resolved_transaction.amount, false⟩,
        held := self.held - resolved_transaction.amount,
        available := self.available + resolved_transaction.amount }
  | Action.ChargeBack =>
    match self.lookup_transaction tx true with
    | Except.error e => Except.error e
    | Except.ok charge_back_transaction =>
      Except.ok { self with
        held := self.held - charge_back_transaction.amount,
        locked := true }

/-- `Account::handle_transaction`: apply the effects of the given transaction. -/
def Account.handle_transaction (self : Account) (transaction : Transaction) :
    Except Err Account :=
  if self.client ≠ transaction.client then
    Except.error Err.clientMismatch
  else if self.locked then
    Except.error Err.accountLocked
  else
    self.handle_valid_transaction transaction

/-- One driver step on a single account: apply the transaction, keeping the old
account on a recoverable error (the loops in src/main.rs and the tests discard
the error and continue). -/
def Account.applyOne (a : Account) (t : Transaction) : Account :=
  match a.handle_transaction t with
  | Except.ok a2 => a2
  | Except.error _ => a

/-- Apply a whole list of transactions to one account, continuing past
recoverable errors. -/
def Account.applyAll (a : Account) : List Transaction → Account
  | [] => a
  | t :: ts => (a.applyOne t).applyAll ts

/-- `State` from src/state.rs: the map from client to account. -/
structure State where
  accounts : List (Client × Account)
deriving DecidableEq, Repr

/-- `State::new`. -/
def State.new : State := { accounts := [] }

/-- `State::handle_transaction`: `entry(client).or_insert_with(Account::new)`
materialises the account (creating a fresh one for an unknown client) before
the per-account handler runs, so the created account stays in the map even when
the handler rejects the transaction. -/
def State.handle_transaction (s : State) (transaction : Transaction) :
    Except Err Unit × State :=
  let client := transaction.client
  let account :=
    match mapLookup s.accounts client with
    | some a => a
    | none => Account.new client
  match account.handle_transaction transaction with
  | Except.ok a2 => (Except.ok (), { accounts := mapInsert s.accounts client a2 })
  | Except.error e => (Except.error e, { accounts := mapInsert s.accounts client account })

/-- The transaction loop of src/main.rs: apply every transaction in order,
discarding per-transaction errors. -/
def State.process (s : State) : List Transaction → State
  | [] => s
  | t :: ts => State.process (s.handle_transaction t).2 ts

/-- One output row of `State::write_csv`, by numeric content (the decimal
rendering `convert_from_thousandths` is an I/O-boundary adapter). -/
structure SummaryRow where
  client : Client
  available : Money
  held : Money
  total : Money
  locked : Bool
deriving DecidableEq, Repr

/-- Insertion step for sorting accounts by client id. -/
def insertByClient (a : Account) : List Account → List Account
  | [] => [a]
  | b :: rest =>
    if a.client ≤ b.client then a :: b :: rest else b :: insertByClient a rest

/-- `accounts.sort_by_key(|a| a.client)` in `State::write_csv`. -/
def sortByClient : List Account → List Account
  | [] => []
  | a :: rest => insertByClient a (sortByClient rest)

/-- `State::write_csv`, modelled as the ordered list of numeric rows:
one row `(client, available, held, available + held, locked)` per account,
sorted by client id. -/
def State.summary (s : State) : List SummaryRow :=
  (sortByClient (s.accounts.map Prod.snd)).map fun a =>
    { client := a.client, available := a.available, held := a.held,
      total := a.available + a.held, locked := a.locked }

/-- Sum of the amounts of the deposit records currently under dispute. -/
def disputedSum : List (Tx × DepositDetail) → Money
  | [] => 0
  | (_, d) :: rest => (if d.under_dispute then d.amount else 0) + disputedSum rest

/-- `Action::from_type_and_amount` from src/transaction.rs. The amount is
modelled after `convert_amount` has scaled it to 1/10000 units (that conversion
is floating point at the I/O boundary); the match structure is the source's:
note that `dispute`/`resolve`/`chargeback` only match when the amount is
absent, so a present amount falls through to the error arm. -/
def Action.from_type_and_amount (type_ : String) (amount : Option Money) :
    Except Err Action :=
  match type_, amount with
  | "deposit", some amount => Except.ok (Action.Deposit amount)
  | "withdrawal", some amount => Except.ok (Action.Withdrawal amount)
  | "dispute", none => Except.ok Action.Dispute
  | "resolve", none => Except.ok Action.Resolve
  | "chargeback", none => Except.ok Action.ChargeBack
  | _, _ => Except.error Err.invalidTransactionType

/-- `TransactionRow` from src/transaction.rs (amount already scaled, see
`Action.from_type_and_amount`). -/
structure TransactionRow where
  type_ : String
  client : Client
  tx : Tx
  amount : Option Money
deriving DecidableEq, Repr

/-- `TryFrom<TransactionRow> for Transaction`. -/
def Transaction.tryFrom (value : TransactionRow) : Except Err Transaction :=
  match Action.from_type_and_amount value.type_ value.amount with
  | Except.error e => Except.error e
  | Except.ok detail => Except.ok { client := value.client, tx := value.tx, detail := detail }

-- Sanity checks against the unit tests of src/state.rs.
example :
    (Account.new 1).applyAll [⟨1, 3, Action.Deposit 50000⟩] =
      { client := 1, held := 0, available := 50000, locked := false,
        transactions := [(3, ⟨50000, false⟩)] } := by decide

example :
    (Account.new 1).applyAll [⟨1, 3, Action.Deposit 50000⟩, ⟨1, 3, Action.Dispute⟩,
        ⟨1, 3, Action.ChargeBack⟩] =
      { client := 1, held := 0, available := 0, locked := true,
        transactions := [(3, ⟨50000, true⟩)] } := by decide

example :
    (State.new.process [⟨1, 122, Action.Deposit 50000⟩, ⟨1, 123, Action.Deposit 110000⟩,
        ⟨1, 123, Action.Dispute⟩]).summary =
      [{ client := 1, available := 50000, held := 110000, total := 160000,
         locked := false }] := by decide

/-! ### Association-list map lemmas -/

theorem mapLookup_insert_self {κ ν : Type} [DecidableEq κ] (l : List (κ × ν)) (k : κ) (v : ν) :
    mapLookup (mapInsert l k v) k = some v := by
  induction l with
  | nil => simp [mapInsert, mapLookup]
  | cons hd tl ih =>
    obtain ⟨k0, v0⟩ := hd
    by_cases hk : k0 = k <;> simp [mapInsert, mapLookup, hk, ih]

theorem mapLookup_insert_ne {κ ν : Type} [DecidableEq κ] (l : List (κ × ν)) (k k2 : κ) (v : ν)
    (h : k2 ≠ k) : mapLookup (mapInsert l k v) k2 = mapLookup l k2 := by
  have hne : ¬k = k2 := fun h2 => h (Eq.symm h2)
  induction l with
  | nil => simp [mapInsert, mapLookup, hne]
  | cons hd tl ih =>
    obtain ⟨k0, v0⟩ := hd
    by_cases hk : k0 = k
    · subst hk
      simp [mapInsert, mapLookup, hne]
    · simp only [mapInsert, if_neg hk]
      by_cases hk2 : k0 = k2 <;> simp [mapLookup, hk2, ih]

theorem mapInsert_lookup_self {κ ν : Type} [DecidableEq κ] (l : List (κ × ν)) (k : κ) (v : ν)
    (h : mapLookup l k = some v) : mapInsert l k v = l := by
  induction l with
  | nil => simp [mapLookup] at h
  | cons hd tl ih =>
    obtain ⟨k0, v0⟩ := hd
    by_cases hk : k0 = k
    · simp [mapLookup, hk] at h
      simp [mapInsert, hk, h]
    · simp [mapLookup, hk] at h
      simp [mapInsert, hk, ih h]

theorem mapInsert_of_lookup_none {κ ν : Type} [DecidableEq κ] (l : List (κ × ν)) (k : κ) (v : ν)
    (h : mapLookup l k = none) : mapInsert l k v = l ++ [(k, v)] := by
  induction l with
  | nil => simp [mapInsert]
  | cons hd tl ih =>
    obtain ⟨k0, v0⟩ := hd
    by_cases hk : k0 = k
    · simp [mapLookup, hk] at h
    · simp [mapLookup, hk] at h
      simp [mapInsert, hk, ih h]

/-! ### Disputed-sum lemmas -/

theorem disputedSum_insert_none (l : List (Tx × DepositDetail)) (tx : Tx) (d : DepositDetail)
    (h : mapLookup l tx = none) :
    disputedSum (mapInsert l tx d) =
      disputedSum l + (if d.under_dispute then d.amount else 0) := by
  induction l with
  | nil => simp [mapInsert, disputedSum]
  | cons hd tl ih =>
    obtain ⟨k0, d0⟩ := hd
    by_cases hk : k0 = tx
    · simp [mapLookup, hk] at h
    · simp [mapLookup, hk] at h
      simp only [mapInsert, if_neg hk, disputedSum, ih h]
      ring

theorem disputedSum_insert_some (l : List (Tx × DepositDetail)) (tx : Tx) (d d2 : DepositDetail)
    (h : mapLookup l tx = some d) :
    (if d.under_dispute then d.amount else 0) + disputedSum (mapInsert l tx d2) =
      (if d2.under_dispute then d2.amount else 0) + disputedSum l := by
  induction l with
  | nil => simp [mapLookup] at h
  | cons hd tl ih =>
    obtain ⟨k0, d0⟩ := hd
    by_cases hk : k0 = tx
    · simp [mapLookup, hk] at h
      subst h
      simp only [mapInsert, if_pos hk, disputedSum]
      ring
    · simp [mapLookup, hk] at h
      simp only [mapInsert, if_neg hk, disputedSum]
      calc (if d.under_dispute then d.amount else 0) +
            ((if d0.under_dispute then d0.amount else 0) + disputedSum (mapInsert tl tx d2)) =
          (if d0.under_dispute then d0.amount else 0) +
            ((if d.under_dispute then d.amount else 0) + disputedSum (mapInsert tl tx d2)) := by
            ring
        _ = (if d0.under_dispute then d0.amount else 0) +
            ((if d2.under_dispute then d2.amount else 0) + disputedSum tl) := by rw [ih h]
        _ = (if d2.under_dispute then d2.amount else 0) +
            ((if d0.under_dispute then d0.amount else 0) + disputedSum tl) := by ring

/-! ### Per-action equations for the transaction handler -/

theorem Account.handle_transaction_unlocked (a : Account) (t : Transaction)
    (h1 : a.locked = false) (h2 : a.client = t.client) :
    a.handle_transaction t = a.handle_valid_transaction t := by
  simp [Account.handle_transaction, h1, h2]

theorem Account.hvt_deposit (a : Account) (t : Transaction) (amount : Money)
    (hd : t.detail = Action.Deposit amount) :
    a.handle_valid_transaction t =
      match mapLookup a.transactions t.tx with
      | some _ => Except.error Err.transactionAlreadyExists
      | none =>
        Except.ok { a with
          available := a.available + amount,
          transactions := mapInsert a.transactions t.tx ⟨amount, false⟩ } := by
  simp only [Account.handle_valid_transaction, hd, Account.check_transaction_is_new]
  cases hm : mapLookup a.transactions t.tx <;> simp [hm]

theorem Account.hvt_withdrawal (a : Account) (t : Transaction) (amount : Money)
    (hd : t.detail = Action.Withdrawal amount) :
    a.handle_valid_transaction t =
      match mapLookup a.transactions t.tx with
      | some _ => Except.error Err.transactionAlreadyExists
      | none =>
        if amount ≤ a.available then
          Except.ok { a with available := a.available - amount }
        else
          Except.error Err.insufficientFundsWithdrawal := by
  simp only [Account.handle_valid_transaction, hd, Account.check_transaction_is_new]
  cases hm : mapLookup a.transactions t.tx <;> simp [hm]

theorem Account.hvt_dispute (a : Account) (t : Transaction)
    (hd : t.detail = Action.Dispute) :
    a.handle_valid_transaction t =
      match mapLookup a.transactions t.tx with
      | none => Except.error Err.transactionNotFound
      | some d =>
        if d.under_dispute then
          Except.error Err.alreadyUnderDispute
        else if d.amount ≤ a.available then
          Except.ok { a with
            transactions := mapInsert a.transactions t.tx ⟨d.amount, true⟩,
            available := a.available - d.amount,
            held := a.held + d.amount }
        else
          Except.error Err.insufficientFundsDispute := by
  simp only [Account.handle_valid_transaction, hd, Account.lookup_transaction]
  cases hm : mapLookup a.transactions t.tx with
  | none => simp
  | some d => cases hud : d.under_dispute <;> simp [hud]

theorem Account.hvt_resolve (a : Account) (t : Transaction)
    (hd : t.detail = Action.Resolve) :
    a.handle_valid_transaction t =
      match mapLookup a.transactions t.tx with
      | none => Except.error Err.transactionNotFound
      | some d =>
        if d.under_dispute then
          Except.ok { a with
            transactions := mapInsert a.transactions t.tx ⟨d.amount, false⟩,
            held := a.held - d.amount,
            available := a.available + d.amount }
        else
          Except.error Err.notUnderDispute := by
  simp only [Account.handle_valid_transaction, hd, Account.lookup_transaction]
  cases hm : mapLookup a.transactions t.tx with
  | none => simp
  | some d => cases hud : d.under_dispute <;> simp [hud]

theorem Account.hvt_chargeback (a : Account) (t : Transaction)
    (hd : t.detail = Action.ChargeBack) :
    a.handle_valid_transaction t =
      match mapLookup a.transactions t.tx with
      | none => Except.error Err.transactionNotFound
      | some d =>
        if d.under_dispute then
          Except.ok { a with held := a.held - d.amount, locked := true }
        else
          Except.error Err.notUnderDispute := by
  simp only [Account.handle_valid_transaction, hd, Account.lookup_transaction]
  cases hm : mapLookup a.transactions t.tx with
  | none => simp
  | some d => cases hud : d.under_dispute <;> simp [hud]

/-- A successful `handle_transaction` implies the account was unlocked and the
valid-transaction handler produced the result. -/
theorem Account.handle_transaction_ok_cases (a : Account) (t : Transaction) (a2 : Account)
    (h : a.handle_transaction t = Except.ok a2) :
    a.locked = false ∧ a.handle_valid_transaction t = Except.ok a2 := by
  unfold Account.handle_transaction at h
  by_cases h1 : a.client ≠ t.client
  · simp [h1] at h
  · by_cases h2 : a.locked = true
    · simp [h1, h2] at h
    · refine ⟨by simpa using h2, ?_⟩
      simpa [h1, h2] using h

/-! ### The held-funds invariant -/

/-- The invariant documented on `Account` in src/state.rs: while the account is
not locked, `held` is the total amount of the deposits under dispute. -/
def Account.invariantHeld (a : Account) : Prop :=
  a.locked = false → a.held = disputedSum a.transactions

theorem Account.invariantHeld_new (c : Client) : (Account.new c).invariantHeld :=
  fun _ => rfl

theorem Account.invariantHeld_hvt (a : Account) (t : Transaction) (a2 : Account)
    (hsum : a.held = disputedSum a.transactions)
    (hv : a.handle_valid_transaction t = Except.ok a2) : a2.invariantHeld := by
  cases hd : t.detail with
  | Deposit amount =>
    rw [Account.hvt_deposit a t amount hd] at hv
    split at hv
    · exact absurd hv (by simp)
    · next hm =>
        obtain rfl := (Except.ok.injEq _ _).mp hv
        intro _
        simpa [disputedSum_insert_none a.transactions t.tx ⟨amount, false⟩ hm] using hsum
  | Withdrawal amount =>
    rw [Account.hvt_withdrawal a t amount hd] at hv
    split at hv
    · exact absurd hv (by simp)
    · split at hv
      · obtain rfl := (Except.ok.injEq _ _).mp hv
        intro _
        exact hsum
      · exact absurd hv (by simp)
  | Dispute =>
    rw [Account.hvt_dispute a t hd] at hv
    split at hv
    · exact absurd hv (by simp)
    · next d hm =>
        split at hv
        · exact absurd hv (by simp)
        · next hud =>
            split at hv
            · next hle =>
                obtain rfl := (Except.ok.injEq _ _).mp hv
                intro _
                have hud2 : d.under_dispute = false := by simpa using hud
                have hkey :=
                  disputedSum_insert_some a.transactions t.tx d ⟨d.amount, true⟩ hm
                rw [hud2] at hkey
                simp at hkey
                show a.held + d.amount =
                  disputedSum (mapInsert a.transactions t.tx ⟨d.amount, true⟩)
                rw [hkey, ← hsum]
                exact Nat.add_comm a.held d.amount
            · exact absurd hv (by simp)
  | Resolve =>
    rw [Account.hvt_resolve a t hd] at hv
    split at hv
    · exact absurd hv (by simp)
    · next d hm =>
        split at hv
        · next hud =>
            obtain rfl := (Except.ok.injEq _ _).mp hv
            intro _
            have hkey :=
              disputedSum_insert_some a.transactions t.tx d ⟨d.amount, false⟩ hm
            rw [hud] at hkey
            simp at hkey
            rw [← hsum] at hkey
            show a.held - d.amount =
              disputedSum (mapInsert a.transactions t.tx ⟨d.amount, false⟩)
            exact Nat.sub_eq_of_eq_add (by rw [← hkey]; exact Nat.add_comm d.amount _)
        · exact absurd hv (by simp)
  | ChargeBack =>
    rw [Account.hvt_chargeback a t hd] at hv
    split at hv
    · exact absurd hv (by simp)
    · split at hv
      · obtain rfl := (Except.ok.injEq _ _).mp hv
        intro hl2
        exact absurd hl2 (by simp)
      · exact absurd hv (by simp)

theorem Account.invariantHeld_applyOne (a : Account) (t : Transaction)
    (h : a.invariantHeld) : (a.applyOne t).invariantHeld := by
  unfold Account.applyOne
  cases hr : a.handle_transaction t with
  | error e => exact h
  | ok a2 =>
    obtain ⟨hl, hv⟩ := Account.handle_transaction_ok_cases a t a2 hr
    exact Account.invariantHeld_hvt a t a2 (h hl) hv

theorem Account.invariantHeld_applyAll (a : Account) (ts : List Transaction)
    (h : a.invariantHeld) : (a.applyAll ts).invariantHeld := by
  induction ts generalizing a with
  | nil => exact h
  | cons t ts ih => exact ih (a.applyOne t) (Account.invariantHeld_applyOne a t h)

/-! ### Locked accounts reject everything and never change -/

theorem Account.handle_transaction_locked (a : Account) (t : Transaction)
    (h : a.locked = true) (hc : t.client = a.client) :
    a.handle_transaction t = Except.error Err.accountLocked := by
  simp [Account.handle_transaction, h, hc]

theorem Account.applyOne_locked (a : Account) (t : Transaction)
    (h : a.locked = true) : a.applyOne t = a := by
  unfold Account.applyOne Account.handle_transaction
  by_cases h1 : a.client ≠ t.client
  · simp [h1]
  · simp [h1, h]

theorem Account.applyAll_locked (a : Account) (ts : List Transaction)
    (h : a.locked = true) : a.applyAll ts = a := by
  induction ts with
  | nil => rfl
  | cons t ts ih => simp [Account.applyAll, Account.applyOne_locked a t h, ih]

/-! ### State-level helpers -/

/-- On a recoverable error, the ledger map afterwards is the old map with the
located-or-created account written back unchanged. -/
theorem State.handle_transaction_error_accounts (s : State) (t : Transaction) (e : Err)
    (h : (s.handle_transaction t).1 = Except.error e) :
    (s.handle_transaction t).2.accounts =
      mapInsert s.accounts t.client
        (match mapLookup s.accounts t.client with
         | some a => a
         | none => Account.new t.client) := by
  unfold State.handle_transaction at h ⊢
  cases hr : (match mapLookup s.accounts t.client with
              | some a => a
              | none => Account.new t.client).handle_transaction t with
  | ok a2 => simp [hr] at h
  | error e2 => simp [hr]

/-- If the driver step fails, the old account is kept. -/
theorem Account.applyOne_of_error (a : Account) (t : Transaction) (e : Err)
    (h : a.handle_transaction t = Except.error e) : a.applyOne t = a := by
  simp [Account.applyOne, h]

theorem mem_insertByClient (a b : Account) (l : List Account) :
    b ∈ insertByClient a l ↔ b = a ∨ b ∈ l := by
  induction l with
  | nil => simp [insertByClient]
  | cons hd tl ih =>
    by_cases hle : a.client ≤ hd.client
    · simp [insertByClient, hle]
    · simp [insertByClient, hle, ih]
      tauto

theorem mem_sortByClient (b : Account) (l : List Account) :
    b ∈ sortByClient l ↔ b ∈ l := by
  induction l with
  | nil => simp [sortByClient]
  | cons hd tl ih => simp [sortByClient, mem_insertByClient, ih]

/-! ### Claim theorems -/

/-- C1 (counterexample): the claim that a failed transaction leaves the entire
observable ledger state exactly as before is false: disputing an unknown
transaction id for a fresh client returns an error, yet the ledger state has
changed (an account for that client now exists). -/
theorem failed_transaction_state_change_cex :
    (State.new.handle_transaction ⟨1, 1, Action.Dispute⟩).1 =
      Except.error Err.transactionNotFound ∧
    (State.new.handle_transaction ⟨1, 1, Action.Dispute⟩).2 ≠ State.new := by
  decide

/-- C1 (amended): if applying a transaction returns a recoverable error, then
every account's observable state is exactly as before the call, except that a
fresh all-zero unlocked account may have been created for the transaction's
client when no account existed for it; and the run continues with the next
transaction. -/
theorem failed_transaction_only_creates_fresh_account (s : State) (t : Transaction)
    (e : Err) (c : Client) (ts : List Transaction)
    (h : (s.handle_transaction t).1 = Except.error e) :
    mapLookup (s.handle_transaction t).2.accounts c =
      (if c = t.client ∧ mapLookup s.accounts t.client = none
       then some (Account.new t.client)
       else mapLookup s.accounts c) ∧
    s.process (t :: ts) = ((s.handle_transaction t).2).process ts := by
  refine ⟨?_, rfl⟩
  rw [State.handle_transaction_error_accounts s t e h]
  cases hm : mapLookup s.accounts t.client with
  | some a =>
    rw [if_neg (by simp)]
    show mapLookup (mapInsert s.accounts t.client a) c = mapLookup s.accounts c
    rw [mapInsert_lookup_self s.accounts t.client a hm]
  | none =>
    by_cases hc : c = t.client
    · subst hc
      rw [if_pos ⟨rfl, rfl⟩]
      show mapLookup (mapInsert s.accounts t.client (Account.new t.client)) t.client =
        some (Account.new t.client)
      exact mapLookup_insert_self _ _ _
    · rw [if_neg (fun hcc => hc hcc.1)]
      show mapLookup (mapInsert s.accounts t.client (Account.new t.client)) c =
        mapLookup s.accounts c
      exact mapLookup_insert_ne _ _ _ _ hc

theorem failed_transaction_only_creates_fresh_account_witness :
    mapLookup (State.new.handle_transaction ⟨1, 1, Action.Dispute⟩).2.accounts 1 =
      (if (1 : Client) = 1 ∧ mapLookup State.new.accounts 1 = none
       then some (Account.new 1)
       else mapLookup State.new.accounts 1) ∧
    State.new.process [⟨1, 1, Action.Dispute⟩] =
      ((State.new.handle_transaction ⟨1, 1, Action.Dispute⟩).2).process [] :=
  failed_transaction_only_creates_fresh_account State.new ⟨1, 1, Action.Dispute⟩
    Err.transactionNotFound 1 [] (by decide)

/-- C2: in every account state reachable from a fresh account by a sequence of
applied transactions, if the account is not locked then `held` equals the sum
of the amounts of the deposit records under dispute. -/
theorem held_equals_disputed_sum (c : Client) (ts : List Transaction)
    (h : ((Account.new c).applyAll ts).locked = false) :
    ((Account.new c).applyAll ts).held =
      disputedSum ((Account.new c).applyAll ts).transactions :=
  Account.invariantHeld_applyAll (Account.new c) ts (Account.invariantHeld_new c) h

theorem held_equals_disputed_sum_witness :
    ((Account.new 1).applyAll
        [⟨1, 3, Action.Deposit 50⟩, ⟨1, 4, Action.Deposit 20⟩,
         ⟨1, 3, Action.Dispute⟩]).locked = false ∧
    ((Account.new 1).applyAll
        [⟨1, 3, Action.Deposit 50⟩, ⟨1, 4, Action.Deposit 20⟩,
         ⟨1, 3, Action.Dispute⟩]).held =
      disputedSum ((Account.new 1).applyAll
        [⟨1, 3, Action.Deposit 50⟩, ⟨1, 4, Action.Deposit 20⟩,
         ⟨1, 3, Action.Dispute⟩]).transactions :=
  ⟨by decide,
   held_equals_disputed_sum 1
     [⟨1, 3, Action.Deposit 50⟩, ⟨1, 4, Action.Deposit 20⟩, ⟨1, 3, Action.Dispute⟩]
     (by decide)⟩

/-- C3: a locked account rejects every transaction addressed to its client with
the account-locked error, and no sequence of further transactions changes the
account in any way. -/
theorem locked_account_rejects_and_freezes (a : Account) (t : Transaction)
    (ts : List Transaction) (h : a.locked = true) (hc : t.client = a.client) :
    a.handle_transaction t = Except.error Err.accountLocked ∧ a.applyAll ts = a :=
  ⟨Account.handle_transaction_locked a t h hc, Account.applyAll_locked a ts h⟩

theorem locked_account_rejects_and_freezes_witness :
    (⟨1, 0, 50, true, []⟩ : Account).handle_transaction ⟨1, 7, Action.Deposit 5⟩ =
      Except.error Err.accountLocked ∧
    (⟨1, 0, 50, true, []⟩ : Account).applyAll
      [⟨1, 7, Action.Deposit 5⟩, ⟨1, 8, Action.Dispute⟩] = ⟨1, 0, 50, true, []⟩ :=
  locked_account_rejects_and_freezes ⟨1, 0, 50, true, []⟩ ⟨1, 7, Action.Deposit 5⟩
    [⟨1, 7, Action.Deposit 5⟩, ⟨1, 8, Action.Dispute⟩] (by decide) (by decide)

/-- C4: on an unlocked account, a Dispute is rejected with transaction-not-found
when the id has no deposit record, with already-under-dispute when the record is
already disputed, and with insufficient-funds when the record's amount exceeds
`available`; otherwise it moves the amount from `available` to `held` and marks
the record disputed, changing nothing else. -/
theorem dispute_rules (a : Account) (tx : Tx) (h : a.locked = false) :
    a.handle_transaction ⟨a.client, tx, Action.Dispute⟩ =
      match mapLookup a.transactions tx with
      | none => Except.error Err.transactionNotFound
      | some d =>
        if d.under_dispute then
          Except.error Err.alreadyUnderDispute
        else if d.amount ≤ a.available then
          Except.ok { a with
            transactions := mapInsert a.transactions tx ⟨d.amount, true⟩,
            available := a.available - d.amount,
            held := a.held + d.amount }
        else
          Except.error Err.insufficientFundsDispute := by
  rw [Account.handle_transaction_unlocked a ⟨a.client, tx, Action.Dispute⟩ h rfl]
  exact Account.hvt_dispute a ⟨a.client, tx, Action.Dispute⟩ rfl

theorem dispute_rules_witness :
    (⟨1, 0, 40, false, [(3, ⟨40, false⟩)]⟩ : Account).handle_transaction
        ⟨1, 3, Action.Dispute⟩ =
      match mapLookup (⟨1, 0, 40, false, [(3, ⟨40, false⟩)]⟩ : Account).transactions 3 with
      | none => Except.error Err.transactionNotFound
      | some d =>
        if d.under_dispute then
          Except.error Err.alreadyUnderDispute
        else if d.amount ≤ (⟨1, 0, 40, false, [(3, ⟨40, false⟩)]⟩ : Account).available then
          Except.ok { (⟨1, 0, 40, false, [(3, ⟨40, false⟩)]⟩ : Account) with
            transactions :=
              mapInsert (⟨1, 0, 40, false, [(3, ⟨40, false⟩)]⟩ : Account).transactions 3
                ⟨d.amount, true⟩,
            available := (⟨1, 0, 40, false, [(3, ⟨40, false⟩)]⟩ : Account).available - d.amount,
            held := (⟨1, 0, 40, false, [(3, ⟨40, false⟩)]⟩ : Account).held + d.amount }
        else
          Except.error Err.insufficientFundsDispute :=
  dispute_rules ⟨1, 0, 40, false, [(3, ⟨40, false⟩)]⟩ 3 (by decide)

/-- C5: on an unlocked account, a ChargeBack is rejected with
transaction-not-found when the id has no deposit record and with
not-under-dispute when the record is not disputed; otherwise it removes the
amount from `held` and locks the account, leaving `available`, the record and
its dispute flag untouched. -/
theorem chargeback_rules (a : Account) (tx : Tx) (h : a.locked = false) :
    a.handle_transaction ⟨a.client, tx, Action.ChargeBack⟩ =
      match mapLookup a.transactions tx with
      | none => Except.error Err.transactionNotFound
      | some d =>
        if d.under_dispute then
          Except.ok { a with held := a.held - d.amount, locked := true }
        else
          Except.error Err.notUnderDispute := by
  rw [Account.handle_transaction_unlocked a ⟨a.client, tx, Action.ChargeBack⟩ h rfl]
  exact Account.hvt_chargeback a ⟨a.client, tx, Action.ChargeBack⟩ rfl

theorem chargeback_rules_witness :
    (⟨1, 40, 10, false, [(3, ⟨40, true⟩)]⟩ : Account).handle_transaction
        ⟨1, 3, Action.ChargeBack⟩ =
      match mapLookup (⟨1, 40, 10, false, [(3, ⟨40, true⟩)]⟩ : Account).transactions 3 with
      | none => Except.error Err.transactionNotFound
      | some d =>
        if d.under_dispute then
          Except.ok { (⟨1, 40, 10, false, [(3, ⟨40, true⟩)]⟩ : Account) with
            held := (⟨1, 40, 10, false, [(3, ⟨40, true⟩)]⟩ : Account).held - d.amount,
            locked := true }
        else
          Except.error Err.notUnderDispute :=
  chargeback_rules ⟨1, 40, 10, false, [(3, ⟨40, true⟩)]⟩ 3 (by decide)

/-- C6: on an unlocked account, a Deposit whose id already has a deposit record
is rejected with the duplicate-transaction error and the driver keeps the
account unchanged, whatever amount the duplicate carries; a fresh Deposit adds
the amount to `available`, leaves `held` unchanged, and records
`{amount, under_dispute := false}` under the id. -/
theorem deposit_rules (a : Account) (tx : Tx) (amount : Money) (h : a.locked = false) :
    a.handle_transaction ⟨a.client, tx, Action.Deposit amount⟩ =
      (match mapLookup a.transactions tx with
       | some _ => Except.error Err.transactionAlreadyExists
       | none =>
         Except.ok { a with
           available := a.available + amount,
           transactions := mapInsert a.transactions tx ⟨amount, false⟩ }) ∧
    ((mapLookup a.transactions tx).isSome = true →
      a.applyOne ⟨a.client, tx, Action.Deposit amount⟩ = a) := by
  have heq := Account.hvt_deposit a ⟨a.client, tx, Action.Deposit amount⟩ amount rfl
  have hmain := Account.handle_transaction_unlocked a
    ⟨a.client, tx, Action.Deposit amount⟩ h rfl
  refine ⟨hmain.trans heq, fun hs => ?_⟩
  apply Account.applyOne_of_error a _ Err.transactionAlreadyExists
  rw [hmain, heq]
  cases hm : mapLookup a.transactions tx with
  | none => rw [hm] at hs; exact absurd hs (by simp)
  | some d => rfl

theorem deposit_rules_witness :
    ((⟨1, 0, 50, false, [(3, ⟨50, false⟩)]⟩ : Account).handle_transaction
        ⟨1, 3, Action.Deposit 110⟩ =
      (match mapLookup (⟨1, 0, 50, false, [(3, ⟨50, false⟩)]⟩ : Account).transactions 3 with
       | some _ => Except.error Err.transactionAlreadyExists
       | none =>
         Except.ok { (⟨1, 0, 50, false, [(3, ⟨50, false⟩)]⟩ : Account) with
           available := (⟨1, 0, 50, false, [(3, ⟨50, false⟩)]⟩ : Account).available + 110,
           transactions :=
             mapInsert (⟨1, 0, 50, false, [(3, ⟨50, false⟩)]⟩ : Account).transactions 3
               ⟨110, false⟩ })) ∧
    ((mapLookup (⟨1, 0, 50, false, [(3, ⟨50, false⟩)]⟩ : Account).transactions 3).isSome = true →
      (⟨1, 0, 50, false, [(3, ⟨50, false⟩)]⟩ : Account).applyOne
        ⟨1, 3, Action.Deposit 110⟩ = ⟨1, 0, 50, false, [(3, ⟨50, false⟩)]⟩) :=
  deposit_rules ⟨1, 0, 50, false, [(3, ⟨50, false⟩)]⟩ 3 110 (by decide)

/-- C7: on an unlocked account, a Withdrawal whose id already exists in the
deposit-record map is rejected with the duplicate-transaction error (withdrawals
share the id namespace with deposits), one whose amount exceeds `available` is
rejected with insufficient-funds, and otherwise it subtracts the amount from
`available` and adds no entry to the deposit-record map. -/
theorem withdrawal_rules (a : Account) (tx : Tx) (amount : Money) (h : a.locked = false) :
    a.handle_transaction ⟨a.client, tx, Action.Withdrawal amount⟩ =
      match mapLookup a.transactions tx with
      | some _ => Except.error Err.transactionAlreadyExists
      | none =>
        if amount ≤ a.available then
          Except.ok { a with available := a.available - amount }
        else
          Except.error Err.insufficientFundsWithdrawal := by
  rw [Account.handle_transaction_unlocked a ⟨a.client, tx, Action.Withdrawal amount⟩ h rfl]
  exact Account.hvt_withdrawal a ⟨a.client, tx, Action.Withdrawal amount⟩ amount rfl

theorem withdrawal_rules_witness :
    (⟨1, 0, 50, false, [(3, ⟨50, false⟩)]⟩ : Account).handle_transaction
        ⟨1, 5, Action.Withdrawal 20⟩ =
      match mapLookup (⟨1, 0, 50, false, [(3, ⟨50, false⟩)]⟩ : Account).transactions 5 with
      | some _ => Except.error Err.transactionAlreadyExists
      | none =>
        if 20 ≤ (⟨1, 0, 50, false, [(3, ⟨50, false⟩)]⟩ : Account).available then
          Except.ok { (⟨1, 0, 50, false, [(3, ⟨50, false⟩)]⟩ : Account) with
            available := (⟨1, 0, 50, false, [(3, ⟨50, false⟩)]⟩ : Account).available - 20 }
        else
          Except.error Err.insufficientFundsWithdrawal :=
  withdrawal_rules ⟨1, 0, 50, false, [(3, ⟨50, false⟩)]⟩ 5 20 (by decide)

/-- C8: on an unlocked account, a Resolve is rejected with transaction-not-found
when the id has no deposit record and with not-under-dispute when the record is
not disputed (in particular right after a Deposit with no prior Dispute), the
driver keeping the account unchanged in both cases; otherwise it moves the
amount from `held` back to `available` and clears the dispute flag. -/
theorem resolve_rules (a : Account) (tx : Tx) (h : a.locked = false) :
    a.handle_transaction ⟨a.client, tx, Action.Resolve⟩ =
      (match mapLookup a.transactions tx with
       | none => Except.error Err.transactionNotFound
       | some d =>
         if d.under_dispute then
           Except.ok { a with
             transactions := mapInsert a.transactions tx ⟨d.amount, false⟩,
             held := a.held - d.amount,
             available := a.available + d.amount }
         else
           Except.error Err.notUnderDispute) ∧
    a.applyOne ⟨a.client, tx, Action.Resolve⟩ =
      (match mapLookup a.transactions tx with
       | none => a
       | some d =>
         if d.under_dispute then
           { a with
             transactions := mapInsert a.transactions tx ⟨d.amount, false⟩,
             held := a.held - d.amount,
             available := a.available + d.amount }
         else
           a) := by
  have heq := (Account.handle_transaction_unlocked a ⟨a.client, tx, Action.Resolve⟩
      h rfl).trans (Account.hvt_resolve a ⟨a.client, tx, Action.Resolve⟩ rfl)
  refine ⟨heq, ?_⟩
  unfold Account.applyOne
  rw [heq]
  cases hm : mapLookup a.transactions tx with
  | none => rfl
  | some d => cases hud : d.under_dispute <;> simp [hud]

theorem resolve_rules_witness :
    ((⟨1, 0, 50000, false, [(3, ⟨50000, false⟩)]⟩ : Account).handle_transaction
        ⟨1, 3, Action.Resolve⟩ =
      (match mapLookup (⟨1, 0, 50000, false, [(3, ⟨50000, false⟩)]⟩ : Account).transactions 3 with
       | none => Except.error Err.transactionNotFound
       | some d =>
         if d.under_dispute then
           Except.ok { (⟨1, 0, 50000, false, [(3, ⟨50000, false⟩)]⟩ : Account) with
             transactions :=
               mapInsert (⟨1, 0, 50000, false, [(3, ⟨50000, false⟩)]⟩ : Account).transactions 3
                 ⟨d.amount, false⟩,
             held := (⟨1, 0, 50000, false, [(3, ⟨50000, false⟩)]⟩ : Account).held - d.amount,
             available :=
               (⟨1, 0, 50000, false, [(3, ⟨50000, false⟩)]⟩ : Account).available + d.amount }
         else
           Except.error Err.notUnderDispute)) ∧
    (⟨1, 0, 50000, false, [(3, ⟨50000, false⟩)]⟩ : Account).applyOne
        ⟨1, 3, Action.Resolve⟩ =
      (match mapLookup (⟨1, 0, 50000, false, [(3, ⟨50000, false⟩)]⟩ : Account).transactions 3 with
       | none => (⟨1, 0, 50000, false, [(3, ⟨50000, false⟩)]⟩ : Account)
       | some d =>
         if d.under_dispute then
           { (⟨1, 0, 50000, false, [(3, ⟨50000, false⟩)]⟩ : Account) with
             transactions :=
               mapInsert (⟨1, 0, 50000, false, [(3, ⟨50000, false⟩)]⟩ : Account).transactions 3
                 ⟨d.amount, false⟩,
             held := (⟨1, 0, 50000, false, [(3, ⟨50000, false⟩)]⟩ : Account).held - d.amount,
             available :=
               (⟨1, 0, 50000, false, [(3, ⟨50000, false⟩)]⟩ : Account).available + d.amount }
         else
           (⟨1, 0, 50000, false, [(3, ⟨50000, false⟩)]⟩ : Account)) :=
  resolve_rules ⟨1, 0, 50000, false, [(3, ⟨50000, false⟩)]⟩ 3 (by decide)

/-- C9 (counterexample): the claim that a dispute/resolve/chargeback row with a
present amount field validates successfully is false: the source's match only
accepts these types with an absent amount, so a present amount falls through to
the invalid-transaction-type error. -/
theorem dispute_with_amount_rejected_cex :
    Action.from_type_and_amount "dispute" (some 50000) =
      Except.error Err.invalidTransactionType ∧
    Action.from_type_and_amount "dispute" (some 50000) ≠ Except.ok Action.Dispute ∧
    Transaction.tryFrom ⟨"dispute", 1, 3, some 50000⟩ =
      Except.error Err.invalidTransactionType := by
  decide

/-- C9 (amended): a raw row of type dispute, resolve or chargeback whose amount
field is present is rejected with the invalid-transaction-type error (row
conversion fails), not tolerated. -/
theorem amountless_types_reject_present_amount (ty : String) (m : Money)
    (c : Client) (tx : Tx)
    (h : ty = "dispute" ∨ ty = "resolve" ∨ ty = "chargeback") :
    Action.from_type_and_amount ty (some m) = Except.error Err.invalidTransactionType ∧
    Transaction.tryFrom ⟨ty, c, tx, some m⟩ = Except.error Err.invalidTransactionType := by
  have hbase : Action.from_type_and_amount ty (some m) =
      Except.error Err.invalidTransactionType := by
    rcases h with h | h | h <;> subst h <;> rfl
  exact ⟨hbase, by simp [Transaction.tryFrom, hbase]⟩

theorem amountless_types_reject_present_amount_witness :
    Action.from_type_and_amount "resolve" (some 7) =
      Except.error Err.invalidTransactionType ∧
    Transaction.tryFrom ⟨"resolve", 0, 0, some 7⟩ =
      Except.error Err.invalidTransactionType :=
  amountless_types_reject_present_amount "resolve" 7 0 0 (Or.inr (Or.inl rfl))

/-- C10: a transaction for a client with no existing account creates that
client's fresh all-zero unlocked account even when the transaction itself is
rejected, and the client then appears in the summary with an all-zero unlocked
row. -/
theorem fresh_client_account_created (s : State) (t : Transaction) (e : Err)
    (h1 : mapLookup s.accounts t.client = none)
    (h2 : (s.handle_transaction t).1 = Except.error e) :
    mapLookup (s.handle_transaction t).2.accounts t.client = some (Account.new t.client) ∧
    ({ client := t.client, available := 0, held := 0, total := 0, locked := false } :
        SummaryRow) ∈ (s.handle_transaction t).2.summary := by
  have hacc := State.handle_transaction_error_accounts s t e h2
  constructor
  · rw [hacc]
    simp only [h1]
    exact mapLookup_insert_self _ _ _
  · unfold State.summary
    apply List.mem_map.mpr
    refine ⟨Account.new t.client, ?_, rfl⟩
    rw [mem_sortByClient]
    rw [hacc]
    simp only [h1]
    rw [mapInsert_of_lookup_none _ _ _ h1]
    simp

theorem fresh_client_account_created_witness :
    mapLookup (State.new.handle_transaction ⟨2, 9, Action.Dispute⟩).2.accounts 2 =
      some (Account.new 2) ∧
    ({ client := 2, available := 0, held := 0, total := 0, locked := false } :
        SummaryRow) ∈ (State.new.handle_transaction ⟨2, 9, Action.Dispute⟩).2.summary :=
  fresh_client_account_created State.new ⟨2, 9, Action.Dispute⟩ Err.transactionNotFound
    (by decide) (by decide)

end Atm
